import Mathlib

/-!
Verification of the batch-report-generator core against its specification.

The definitions below are a shallow embedding of the decision logic in
src/core/pdf_processor.py, src/core/ai_engine.py, src/core/config.py and the
per-company pipeline in src/batch_report_generator.py.  Pure Python functions
become Lean functions; the remote HTTP service is abstracted as a stream of
events (one event per request issued); machine integers are Nat/Int (Python
integers are unbounded, PDF page counts are small non-negative ints).
-/

namespace BatchReport

-- ===========================================================================
-- Constants from src/core/config.py
-- ===========================================================================

/-- config.py: MAX_RETRIES = 6. -/
def MAX_RETRIES : Nat := 6

/-- config.py: BASE_DELAY = 30 (seconds). -/
def BASE_DELAY : Nat := 30

/-- config.py: MAX_DELAY = 600 (seconds). -/
def MAX_DELAY : Nat := 600

/-- config.py: HEAVY_REPORT_THRESHOLD = 300 (pages). -/
def HEAVY_REPORT_THRESHOLD : Nat := 300

/-- config.py: the fixed, order-significant SECTIONS list. -/
def SECTIONS : List String :=
  ["company_profile", "executive_summary", "business_environment",
   "asset_portfolio_analysis", "debt_structure", "financial_analysis",
   "cash_flow_and_liquidity", "liquidation_analysis"]

/-- config.py: BOARD_REPORT_SECTIONS (full-context group for heavy reports). -/
def BOARD_REPORT_SECTIONS : List String :=
  ["company_profile", "executive_summary", "business_environment",
   "asset_portfolio_analysis"]

/-- config.py: FINANCIAL_STATEMENTS_SECTIONS (focused-financial group). -/
def FINANCIAL_STATEMENTS_SECTIONS : List String :=
  ["debt_structure", "financial_analysis", "cash_flow_and_liquidity",
   "liquidation_analysis"]

/-- config.py: SECTION_DISPLAY_NAMES, the Hebrew display-name table. -/
def SECTION_DISPLAY_NAMES : List (String × String) :=
  [("company_profile", "פרופיל חברה"),
   ("executive_summary", "תקציר מנהלים"),
   ("business_environment", "סביבה עסקית"),
   ("asset_portfolio_analysis", "ניתוח תיק נכסים"),
   ("debt_structure", "מבנה חוב"),
   ("financial_analysis", "ניתוח פיננסי"),
   ("cash_flow_and_liquidity", "תזרים מזומנים ונזילות"),
   ("liquidation_analysis", "ניתוח פירוק")]

/-- Python SECTION_DISPLAY_NAMES.get(section_id, section_id). -/
def section_display_name (section_id : String) : String :=
  ((SECTION_DISPLAY_NAMES.find? (fun p => p.1 == section_id)).map Prod.snd).getD
    section_id

-- ===========================================================================
-- Document model (src/core/pdf_processor.py)
-- ===========================================================================

/-- A PDF byte string as seen through fitz.open: either it opens and exposes a
page count, or opening raises an exception (corrupt / unreadable bytes). -/
inductive PdfDoc
  | ok (pageCount : Nat)
  | corrupt
deriving DecidableEq, Repr

/-- pdf_processor.get_pdf_page_count: returns doc.page_count, and on ANY
exception logs the error and returns 0 (the except branch at lines 41-43). -/
def get_pdf_page_count : PdfDoc → Nat
  | .ok n => n
  | .corrupt => 0

/-- pdf_processor.is_heavy_report: (total_pages > HEAVY_REPORT_THRESHOLD,
total_pages). -/
def is_heavy_report (d : PdfDoc) : Bool × Nat :=
  let total_pages := get_pdf_page_count d
  (total_pages > HEAVY_REPORT_THRESHOLD, total_pages)

-- ===========================================================================
-- Document slicer (pdf_processor.slice_pdf / batch slice_pdf_fitz)
-- ===========================================================================

/-- pdf_processor.slice_pdf, abstracted to the page range the produced
document covers.  The source clamps start_page to max(0, start_page) and
end_page to min(total_pages - 1, end_page); if start_page > end_page after
clamping it returns None; otherwise fitz insert_pdf copies the inclusive page
range [start_page, end_page] into the new document.  Page indices are Int
because Python arithmetic on them is signed (total_pages - 1 is -1 for an
empty document, and callers may pass negative ranges). -/
def slice_pdf (total_pages : Nat) (start_page end_page : Int) :
    Option (Int × Int) :=
  let s := max 0 start_page
  let e := min ((total_pages : Int) - 1) end_page
  if s > e then none else some (s, e)

/-- Page count of a slice: insert_pdf(from_page=s, to_page=e) copies the
inclusive range, so the slice has e - s + 1 pages (the source logs exactly
pages_extracted = end_page - start_page + 1). -/
def slice_page_count : Option (Int × Int) → Option Int
  | none => none
  | some r => some (r.2 - r.1 + 1)

-- ===========================================================================
-- Structure mapper (pdf_processor.get_default_structure_map,
-- map_report_structure, create_report_slices; identical logic is duplicated
-- in batch_report_generator.py)
-- ===========================================================================

/-- A page range as stored in a structure map: the values under the keys
named start and end (end is a reserved word in Lean, hence stop). -/
structure PageRange where
  start : Int
  stop : Int
deriving DecidableEq, Repr

/-- The structure map returned by map_report_structure: the code always
populates exactly the three region keys board_report, financial_statements
and notes. -/
structure StructureMap where
  board_report : PageRange
  financial_statements : PageRange
  notes : PageRange
deriving DecidableEq, Repr

/-- pdf_processor.get_default_structure_map.  The source computes
board_end = int(total_pages * 0.25) and financial_end = int(total_pages *
0.60).  0.25 is a power of two, so the first float product is exact and
truncates to total_pages / 4; for 0.60 the double rounding error is below
0.2 ulp-adjusted for every page count under 2^50, so int(total_pages * 0.60)
equals the truncating division 3 * total_pages / 5 on every representable
page count (PDF page counts are C ints). -/
def get_default_structure_map (total_pages : Nat) : StructureMap :=
  let board_end : Nat := total_pages / 4
  let financial_start := board_end
  let financial_end : Nat := 3 * total_pages / 5
  let notes_start := financial_end
  { board_report := ⟨0, board_end⟩
    financial_statements := ⟨financial_start, financial_end⟩
    notes := ⟨notes_start, (total_pages : Int) - 1⟩ }

/-- One region object of the model's JSON reply: the integer values under
start and end, each possibly absent (dict.get supplies the defaults 1 and
total_pages inside map_report_structure). -/
structure RawRange where
  start : Option Int
  stop : Option Int
deriving DecidableEq, Repr

/-- Outcome of the cleanup-and-json.loads stage of map_report_structure.
unparseable covers every reply on which json.loads raises JSONDecodeError
after the markdown-fence stripping and outermost-brace extraction, and every
reply whose region values are not integer dicts (those raise TypeError or
AttributeError inside the validation loop, caught by the final except branch
which also falls back to the default map).  object carries, for each of the
three fixed region names, the region dict when the key is present. -/
inductive ParsedResponse
  | unparseable
  | object (board_report financial_statements notes : Option RawRange)
deriving DecidableEq, Repr

/-- The per-region validation step of map_report_structure (lines 256-259):
start = max(0, region.get(start, 1) - 1) and
end = min(total_pages - 1, region.get(end, total_pages) - 1), converting the
model's 1-indexed bounds to 0-indexed clamped bounds. -/
def validate_region (total_pages : Nat) (r : RawRange) : PageRange :=
  ⟨max 0 (r.start.getD 1 - 1),
   min ((total_pages : Int) - 1) (r.stop.getD (total_pages : Int) - 1)⟩

/-- The validated-map construction of map_report_structure (lines 253-268):
each region present in the parsed reply is validated; each absent region is
filled from the default map. -/
def build_validated_map (total_pages : Nat)
    (b f nt : Option RawRange) : StructureMap :=
  let dflt := get_default_structure_map total_pages
  { board_report :=
      match b with
      | some r => validate_region total_pages r
      | none => dflt.board_report
    financial_statements :=
      match f with
      | some r => validate_region total_pages r
      | none => dflt.financial_statements
    notes :=
      match nt with
      | some r => validate_region total_pages r
      | none => dflt.notes }

/-- pdf_processor.map_report_structure.  The initial fitz.open (line 202) is
OUTSIDE any try/except, so a corrupt document raises (Except.error); after
that every failure path returns the default map: empty TOC text
(toc_text_is_empty), a missing model reply (response = none, covering both
generate_with_retry returning None and an empty reply), and an unparseable
reply.  A parsed reply goes through build_validated_map. -/
def map_report_structure (doc : PdfDoc) (toc_text_is_empty : Bool)
    (response : Option ParsedResponse) : Except Unit StructureMap :=
  match doc with
  | .corrupt => .error ()
  | .ok total_pages =>
    if toc_text_is_empty then .ok (get_default_structure_map total_pages)
    else
      match response with
      | none => .ok (get_default_structure_map total_pages)
      | some .unparseable => .ok (get_default_structure_map total_pages)
      | some (.object b f nt) => .ok (build_validated_map total_pages b f nt)

/-- The two slices produced by create_report_slices, abstracted (like
slice_pdf) to the page ranges they cover. -/
structure ReportSlices where
  board_slice : Option (Int × Int)
  financial_slice : Option (Int × Int)
deriving DecidableEq, Repr

/-- pdf_processor.create_report_slices.  A StructureMap always carries all
three regions as non-empty dicts, so the board slice is always attempted and
the financial slice always takes the both-present branch: it spans the UNION
from financial_statements.start to notes.end. -/
def create_report_slices (total_pages : Nat) (m : StructureMap) :
    ReportSlices :=
  { board_slice := slice_pdf total_pages m.board_report.start m.board_report.stop
    financial_slice := slice_pdf total_pages m.financial_statements.start m.notes.stop }

-- ===========================================================================
-- String helpers (Python keyword in text.lower() tests)
-- ===========================================================================

/-- Python str.lower(), modelled character-wise.  The keyword tables below
are pure ASCII, where Char.toLower agrees with Python lower(). -/
def lower_chars (s : String) : List Char := s.data.map Char.toLower

/-- Prefix test on character lists. -/
def is_prefix_chars : List Char → List Char → Bool
  | [], _ => true
  | _ :: _, [] => false
  | a :: as, b :: bs => a == b && is_prefix_chars as bs

/-- Substring test on character lists: Python needle in haystack. -/
def infix_chars (needle : List Char) : List Char → Bool
  | [] => needle.isEmpty
  | c :: rest => is_prefix_chars needle (c :: rest) || infix_chars needle rest

/-- Python needle in haystack on strings. -/
def str_contains (haystack needle : String) : Bool :=
  infix_chars needle.data haystack.data

-- ===========================================================================
-- Error classifiers (src/core/ai_engine.py)
-- ===========================================================================

/-- ai_engine.is_token_limit_error keyword table. -/
def token_limit_keywords : List String :=
  ["token", "limit", "exceed", "invalidargument", "resourceexhausted",
   "too large", "context length"]

/-- ai_engine.is_rate_limit_error keyword table. -/
def rate_limit_keywords : List String :=
  ["too many requests", "rate limit", "quota", "429", "resource exhausted"]

/-- ai_engine.is_token_limit_error: status 400, or any token-limit keyword in
response.text.lower(). -/
def is_token_limit_error (status : Nat) (body : String) : Bool :=
  if status == 400 then true
  else
    let error_text := lower_chars body
    token_limit_keywords.any (fun k => infix_chars k.data error_text)

/-- ai_engine.is_rate_limit_error: status 429, or any rate-limit keyword in
response.text.lower(). -/
def is_rate_limit_error (status : Nat) (body : String) : Bool :=
  if status == 429 then true
  else
    let error_text := lower_chars body
    rate_limit_keywords.any (fun k => infix_chars k.data error_text)

-- ===========================================================================
-- call_section_api (src/core/ai_engine.py, lines 273-382)
-- ===========================================================================

/-- Outcome of one requests.post to the section-authoring endpoint.
For response, content models data.get(html, data.get(content, "")) lifted to
an Option: none stands both for a 200 body that fails to parse as JSON
(response.json() raises, caught by the generic except branch which returns
(None, False) — the same result as empty content) and for a null html field;
some "" is an empty content string.  For non-200 statuses content is ignored
by the source.  timeout is requests.exceptions.Timeout and raised is any
other exception from requests.post. -/
inductive HttpEvent
  | response (status : Nat) (body : String) (content : Option String)
  | timeout
  | raised
deriving Repr

/-- Python truthiness of the Optional[str] html_content values. -/
def truthy : Option String → Bool
  | none => false
  | some s => !s.isEmpty

/-- Result of call_section_api: the returned pair (html_content,
is_token_error), plus the observable trace — how many HTTP requests were
issued and which time.sleep delays (in seconds, in order) were performed. -/
structure ApiResult where
  content : Option String
  isTokenError : Bool
  requests : Nat
  delays : List Nat
deriving DecidableEq, Repr

/-- The rate-limit backoff delay: min(BASE_DELAY * 2 ** (attempt - 1),
MAX_DELAY) seconds before retry number attempt (ai_engine.py line 332). -/
def rate_limit_delay (attempt : Nat) : Nat :=
  min (BASE_DELAY * 2 ^ (attempt - 1)) MAX_DELAY

/-- The while True loop of call_section_api.  f is the service: f i is the
outcome of the (i+1)-th request this call issues.  rate_limit_retries and
general_retries are the two retry counters (max_general_retries = 3 is the
literal in the source).  fuel only serves to present the recursion to Lean:
the counters bound the loop by 6 rate-limit retries plus 2 general retries
plus a final request, so any fuel of at least
(MAX_RETRIES + 1 - rate_limit_retries) + (3 - general_retries) gives the
exact source behaviour (call_api_loop_fuel below); the 0 case is unreachable
from call_section_api, which passes fuel 12. -/
def call_api_loop (f : Nat → HttpEvent) :
    Nat → Nat → Nat → Nat → ApiResult
  | 0, _, _, _ => ⟨none, false, 0, []⟩
  | fuel + 1, i, rate_limit_retries, general_retries =>
    match f i with
    | .response status body content =>
      if status == 200 then
        if truthy content then ⟨content, false, 1, []⟩
        else ⟨none, false, 1, []⟩
      else if is_rate_limit_error status body then
        let rlr := rate_limit_retries + 1
        if rlr ≤ MAX_RETRIES then
          let wait_time := rate_limit_delay rlr
          let r := call_api_loop f fuel (i + 1) rlr general_retries
          ⟨r.content, r.isTokenError, r.requests + 1, wait_time :: r.delays⟩
        else ⟨none, false, 1, []⟩
      else if is_token_limit_error status body then
        ⟨none, true, 1, []⟩
      else if status == 500 then
        let gr := general_retries + 1
        if gr < 3 then
          let wait_time := 10 * gr
          let r := call_api_loop f fuel (i + 1) rate_limit_retries gr
          ⟨r.content, r.isTokenError, r.requests + 1, wait_time :: r.delays⟩
        else ⟨none, false, 1, []⟩
      else ⟨none, false, 1, []⟩
    | .timeout =>
      let gr := general_retries + 1
      if gr < 3 then
        let r := call_api_loop f fuel (i + 1) rate_limit_retries gr
        ⟨r.content, r.isTokenError, r.requests + 1, 10 :: r.delays⟩
      else ⟨none, false, 1, []⟩
    | .raised => ⟨none, false, 1, []⟩

/-- ai_engine.call_section_api: run the retry loop from fresh counters.
Fuel 12 strictly exceeds the 9 requests the counters allow (see
call_api_loop_fuel below: any fuel covering the counters' bound gives the
same result, so the fuel is an artifact of the embedding, not a semantic
cut-off). -/
def call_section_api (f : Nat → HttpEvent) : ApiResult :=
  call_api_loop f 12 0 0 0

/-- The fuel of call_api_loop is irrelevant once it covers the bound the two
retry counters enforce: from state (rate, gen) at most
(MAX_RETRIES - rate) + (2 - gen) + 1 further requests can happen, so any two
fuels at or above that bound produce identical results.  In particular the
while True loop of the source always terminates and fuel 12 from (0, 0) is
exact. -/
lemma call_api_loop_fuel (f : Nat → HttpEvent) :
    ∀ fuel1 fuel2 i rate gen,
      (MAX_RETRIES - rate) + (2 - gen) + 1 ≤ fuel1 →
      (MAX_RETRIES - rate) + (2 - gen) + 1 ≤ fuel2 →
      call_api_loop f fuel1 i rate gen = call_api_loop f fuel2 i rate gen := by
  intro fuel1
  induction fuel1 with
  | zero =>
    intro fuel2 i rate gen h1 h2
    omega
  | succ k ih =>
    intro fuel2 i rate gen h1 h2
    simp only [MAX_RETRIES] at h1 h2
    cases fuel2 with
    | zero => omega
    | succ m =>
      simp only [call_api_loop]
      cases hf : f i with
      | response status body content =>
        by_cases h200 : (status == 200) = true
        · simp [h200]
        · simp only [h200, Bool.false_eq_true, if_false]
          by_cases hrl : is_rate_limit_error status body = true
          · simp only [hrl, if_true]
            by_cases hle : rate + 1 ≤ MAX_RETRIES
            · simp only [hle, if_true]
              rw [ih m (i + 1) (rate + 1) gen
                  (by simp only [MAX_RETRIES] at hle ⊢; omega)
                  (by simp only [MAX_RETRIES] at hle ⊢; omega)]
            · simp [hle]
          · simp only [hrl, Bool.false_eq_true, if_false]
            by_cases htk : is_token_limit_error status body = true
            · simp [htk]
            · simp only [htk, Bool.false_eq_true, if_false]
              by_cases h500 : (status == 500) = true
              · simp only [h500, if_true]
                by_cases hg : gen + 1 < 3
                · simp only [hg, if_true]
                  rw [ih m (i + 1) rate (gen + 1)
                      (by simp only [MAX_RETRIES]; omega)
                      (by simp only [MAX_RETRIES]; omega)]
                · simp [hg]
              · simp [h500]
      | timeout =>
        by_cases hg : gen + 1 < 3
        · simp only [hg, if_true]
          rw [ih m (i + 1) rate (gen + 1)
              (by simp only [MAX_RETRIES]; omega)
              (by simp only [MAX_RETRIES]; omega)]
        · simp [hg]
      | raised => rfl

-- ===========================================================================
-- generate_section_with_fallback (src/core/ai_engine.py, lines 385-445)
-- ===========================================================================

/-- The (fileUri1, fileUri2) pair of one call_section_api invocation. -/
structure SectionCall where
  fileUri1 : String
  fileUri2 : Option String
deriving DecidableEq, Repr

/-- The wrapped successful section fragment:
div class section id sectionId around the content. -/
def section_div (section_id html_content : String) : String :=
  "<div class=\"section\" id=\"" ++ section_id ++ "\">\n" ++ html_content
    ++ "\n</div>"

/-- Error fragment when the fallback call hits the token limit again. -/
def token_exhausted_div (display_name : String) : String :=
  "<div class=\"error\">שגיאה: " ++ display_name
    ++ " - הקובץ גדול מדי גם עם קובץ בודד</div>"

/-- Error fragment when the fallback call fails for another reason. -/
def fallback_failed_div (display_name : String) : String :=
  "<div class=\"error\">שגיאה בייצור " ++ display_name
    ++ " (fallback נכשל)</div>"

/-- Error fragment when the first call fails without a token-limit error. -/
def generic_failure_div (display_name : String) : String :=
  "<div class=\"error\">שגיאה בייצור " ++ display_name ++ "</div>"

/-- Observable outcome of generate_section_with_fallback: the returned HTML
string, and the trace of call_section_api invocations it performed — each
with its (fileUri1, fileUri2) payload and the number of HTTP requests that
invocation issued. -/
structure SectionOutcome where
  html : String
  calls : List (SectionCall × Nat)
deriving DecidableEq, Repr

/-- ai_engine.generate_section_with_fallback.  oracle gives, per payload, the
service's event stream for a call_section_api invocation with that payload.
Phase 1 calls with (primary_uri, secondary_uri); on a token-limit
classification phase 2 calls once with (fallback_uri, None) — the secondary
document dropped entirely. -/
def generate_section_with_fallback (section_id primary_uri : String)
    (secondary_uri : Option String) (fallback_uri : String)
    (oracle : SectionCall → Nat → HttpEvent) : SectionOutcome :=
  let display_name := section_display_name section_id
  let c1 : SectionCall := ⟨primary_uri, secondary_uri⟩
  let r1 := call_section_api (oracle c1)
  if truthy r1.content then
    ⟨section_div section_id (r1.content.getD ""), [(c1, r1.requests)]⟩
  else if r1.isTokenError then
    let c2 : SectionCall := ⟨fallback_uri, none⟩
    let r2 := call_section_api (oracle c2)
    if truthy r2.content then
      ⟨section_div section_id (r2.content.getD ""),
       [(c1, r1.requests), (c2, r2.requests)]⟩
    else if r2.isTokenError then
      ⟨token_exhausted_div display_name, [(c1, r1.requests), (c2, r2.requests)]⟩
    else
      ⟨fallback_failed_div display_name, [(c1, r1.requests), (c2, r2.requests)]⟩
  else ⟨generic_failure_div display_name, [(c1, r1.requests)]⟩

-- ===========================================================================
-- Routing and section-failure classification
-- (src/batch_report_generator.py, process_company)
-- ===========================================================================

/-- Lines 880-882 of batch_report_generator.process_company: a heavy report
for which neither slice was created is demoted to standard processing
(is_heavy = False) instead of failing. -/
def degrade_to_standard (is_heavy : Bool)
    (board_slice financial_slice : Option String) : Bool :=
  is_heavy && (board_slice.isSome || financial_slice.isSome)

/-- The per-section inputs handed to generate_section_with_fallback. -/
structure SectionInputs where
  primary : Option String
  secondary : Option String
  fallback : Option String
deriving DecidableEq, Repr

/-- Lines 916-940 of batch_report_generator.process_company: per-section
routing.  Heavy: sections of BOARD_REPORT_SECTIONS take the board slice URI
(the financial slice URI if the board one is missing), the other sections
take the financial slice URI (the board one if missing); the quarterly URI is
the secondary and the fallback equals the primary.  Standard: the full annual
URI is both primary and fallback, the quarterly URI is the secondary. -/
def section_inputs (is_heavy : Bool)
    (board_slice_uri financial_slice_uri full_annual_uri quarterly_uri :
      Option String) (section_id : String) : SectionInputs :=
  if is_heavy then
    let primary_uri :=
      if section_id ∈ BOARD_REPORT_SECTIONS then
        board_slice_uri.or financial_slice_uri
      else financial_slice_uri.or board_slice_uri
    ⟨primary_uri, quarterly_uri, primary_uri⟩
  else ⟨full_annual_uri, quarterly_uri, full_annual_uri⟩

/-- Lines 944-945 of batch_report_generator.process_company (same test in
server.py line 311 and cli_runner.py line 305): a section counts as failed
exactly when its HTML fragment contains the substring class="error". -/
def has_error_marker (section_html : String) : Bool :=
  str_contains section_html "class=\"error\""

/-- The failed_sections accumulation of the process_company loop, over the
(section_id, section_html) pairs in SECTIONS order. -/
def collect_failed (pairs : List (String × String)) : List String :=
  (pairs.filter (fun p => has_error_marker p.2)).map Prod.fst

/-- End of process_company: the company is fully successful exactly when no
section was flagged by the substring test. -/
def company_fully_successful (failed_sections : List String) : Bool :=
  failed_sections.isEmpty

-- ===========================================================================
-- Helper lemmas
-- ===========================================================================

/-- Every region produced by validate_region has a non-negative start and an
end at most total_pages - 1 (the two clamps of lines 257-258). -/
lemma validate_region_bounds (N : Nat) (r : RawRange) :
    0 ≤ (validate_region N r).start
    ∧ (validate_region N r).stop ≤ (N : Int) - 1 :=
  ⟨le_max_left 0 _, min_le_left _ _⟩

/-- For at least one page, the default heuristic map is valid: every region
is inside [0, N-1] and non-crossed. -/
lemma default_map_valid (N : Nat) (hN : 1 ≤ N) :
    (0 ≤ (get_default_structure_map N).board_report.start
      ∧ (get_default_structure_map N).board_report.start
          ≤ (get_default_structure_map N).board_report.stop
      ∧ (get_default_structure_map N).board_report.stop ≤ (N : Int) - 1)
    ∧ (0 ≤ (get_default_structure_map N).financial_statements.start
      ∧ (get_default_structure_map N).financial_statements.start
          ≤ (get_default_structure_map N).financial_statements.stop
      ∧ (get_default_structure_map N).financial_statements.stop ≤ (N : Int) - 1)
    ∧ (0 ≤ (get_default_structure_map N).notes.start
      ∧ (get_default_structure_map N).notes.start
          ≤ (get_default_structure_map N).notes.stop
      ∧ (get_default_structure_map N).notes.stop ≤ (N : Int) - 1) := by
  simp only [get_default_structure_map]
  refine ⟨⟨?_, ?_, ?_⟩, ⟨?_, ?_, ?_⟩, ⟨?_, ?_, ?_⟩⟩ <;> omega

-- ===========================================================================
-- Claim theorems
-- ===========================================================================

/-- C9: for every page count N >= 1, the default heuristic structure map is
board_report = [0, 0.25*N], financial_statements = [0.25*N, 0.60*N],
notes = [0.60*N, N-1], boundaries by truncating division; for N = 1000 it is
board_report = [0,250], financial_statements = [250,600], notes = [600,999]. -/
theorem C9_default_heuristic_map (N : Nat) (hN : 1 ≤ N) :
    get_default_structure_map N =
      ⟨⟨0, (N / 4 : Nat)⟩, ⟨(N / 4 : Nat), (3 * N / 5 : Nat)⟩,
       ⟨(3 * N / 5 : Nat), (N : Int) - 1⟩⟩
    ∧ get_default_structure_map 1000 = ⟨⟨0, 250⟩, ⟨250, 600⟩, ⟨600, 999⟩⟩ :=
  ⟨rfl, by decide⟩

/-- Witness for C9 at N = 1000. -/
theorem C9_default_heuristic_map_witness :
    get_default_structure_map 1000 = ⟨⟨0, 250⟩, ⟨250, 600⟩, ⟨600, 999⟩⟩ :=
  (C9_default_heuristic_map 1000 (by norm_num)).2

/-- C2 (the claim states the spec's intent; the source contradicts it): on a
corrupt input whose page count cannot be read, get_pdf_page_count swallows
the exception and returns 0, and is_heavy_report therefore classifies the
document as (not heavy, 0 pages) — no distinct error is reported. -/
theorem C2_corrupt_input_not_flagged :
    is_heavy_report PdfDoc.corrupt = (false, 0)
    ∧ get_pdf_page_count PdfDoc.corrupt = 0 :=
  ⟨rfl, rfl⟩

/-- C3: slice_pdf clamps start to max(0, start) and end to min(N-1, end); a
crossed range after clamping (and in particular any s > e) yields none, not
an exception; and every valid range 0 <= s <= e < N yields the slice [s, e]
with exactly e - s + 1 pages. -/
theorem C3_slice_pdf_correct (N : Nat) (s e : Int) :
    slice_pdf N s e = slice_pdf N (max 0 s) (min ((N : Int) - 1) e)
    ∧ (max 0 s > min ((N : Int) - 1) e → slice_pdf N s e = none)
    ∧ (e < s → slice_pdf N s e = none)
    ∧ (0 ≤ s → s ≤ e → e < (N : Int) →
        slice_pdf N s e = some (s, e)
        ∧ slice_page_count (slice_pdf N s e) = some (e - s + 1)) := by
  refine ⟨?_, ?_, ?_, ?_⟩
  · simp only [slice_pdf]
    rw [← max_assoc, max_self, ← min_assoc, min_self]
  · intro h
    simp only [slice_pdf, if_pos h]
  · intro h
    simp only [slice_pdf]
    rw [if_pos]
    calc min ((N : Int) - 1) e ≤ e := min_le_right _ _
      _ < s := h
      _ ≤ max 0 s := le_max_right 0 s
  · intro h0 hse heN
    have hs : max 0 s = s := max_eq_right h0
    have he : min ((N : Int) - 1) e = e := min_eq_right (by omega)
    have hne : ¬s > e := not_lt.mpr hse
    constructor
    · simp only [slice_pdf, hs, he, if_neg hne]
    · simp only [slice_pdf, hs, he, if_neg hne, slice_page_count]

/-- Witness for C3: a valid range and a crossed range on a 10-page document. -/
theorem C3_slice_pdf_correct_witness :
    slice_pdf 10 2 5 = some (2, 5)
    ∧ slice_page_count (slice_pdf 10 2 5) = some 4
    ∧ slice_pdf 10 7 3 = none := by
  refine ⟨((C3_slice_pdf_correct 10 2 5).2.2.2 (by norm_num) (by norm_num)
            (by norm_num)).1,
          ((C3_slice_pdf_correct 10 2 5).2.2.2 (by norm_num) (by norm_num)
            (by norm_num)).2,
          (C3_slice_pdf_correct 10 7 3).2.2.1 (by norm_num)⟩

/-- C5: the rate-limit backoff before retry number attempt is
min(30 * 2 ** (attempt - 1), 600) seconds, and an execution that is
rate-limited on every request sleeps exactly 30, 60, 120, 240, 480, 600
seconds for attempts 1..6. -/
theorem C5_rate_limit_backoff :
    rate_limit_delay 1 = 30 ∧ rate_limit_delay 2 = 60 ∧ rate_limit_delay 3 = 120
    ∧ rate_limit_delay 4 = 240 ∧ rate_limit_delay 5 = 480
    ∧ rate_limit_delay 6 = 600
    ∧ (∀ attempt, rate_limit_delay attempt
        = min (BASE_DELAY * 2 ^ (attempt - 1)) MAX_DELAY)
    ∧ (call_section_api (fun _ => HttpEvent.response 429 "" none)).delays
        = [30, 60, 120, 240, 480, 600] :=
  ⟨by decide, by decide, by decide, by decide, by decide, by decide,
   fun _ => rfl, by decide⟩

/-- C8: the rate-limit retry counter (limit MAX_RETRIES = 6, exponential
backoff) and the general-error retry counter (limit 3, linear 10*n backoff)
are independent: after consuming any a <= 6 rate-limit retries the full
general-error budget is still available (a + 3 requests in total, backoff
curve 30..600 then 10, 20), and after consuming any b <= 2 general retries
the full rate-limit budget is still available (b + 7 requests, curve
10*1..10*b then 30..600). -/
theorem C8_independent_retry_counters (a b : Nat) (ha : a ≤ MAX_RETRIES)
    (hb : b ≤ 2) :
    call_section_api
        (fun k => if k < a then HttpEvent.response 429 "" none
                  else HttpEvent.response 500 "" none)
      = ⟨none, false, a + 3,
         (List.range a).map (fun i => rate_limit_delay (i + 1)) ++ [10, 20]⟩
    ∧ call_section_api
        (fun k => if k < b then HttpEvent.response 500 "" none
                  else HttpEvent.response 429 "" none)
      = ⟨none, false, b + 7,
         (List.range b).map (fun i => 10 * (i + 1))
           ++ [30, 60, 120, 240, 480, 600]⟩ := by
  have ha6 : a ≤ 6 := ha
  constructor
  · interval_cases a <;> decide
  · interval_cases b <;> decide

/-- Witness for C8 at the extreme budgets a = 6, b = 2. -/
theorem C8_independent_retry_counters_witness :
    call_section_api
        (fun k => if k < 6 then HttpEvent.response 429 "" none
                  else HttpEvent.response 500 "" none)
      = ⟨none, false, 6 + 3,
         (List.range 6).map (fun i => rate_limit_delay (i + 1)) ++ [10, 20]⟩
    ∧ call_section_api
        (fun k => if k < 2 then HttpEvent.response 500 "" none
                  else HttpEvent.response 429 "" none)
      = ⟨none, false, 2 + 7,
         (List.range 2).map (fun i => 10 * (i + 1))
           ++ [30, 60, 120, 240, 480, 600]⟩ :=
  C8_independent_retry_counters 6 2 (by decide) (by decide)

/-- C6: section routing.  Standard document: primary = fallback = full
annual handle, secondary = quarterly handle when present.  Heavy document:
full-context sections take the board slice (financial slice if the board one
is missing), focused-financial sections take the financial slice (board
slice if missing), fallback = primary, secondary = quarterly; and a heavy
document with neither slice is demoted to standard processing instead of
failing. -/
theorem C6_routing (board fin full quarterly : Option String) (sid : String) :
    section_inputs false board fin full quarterly sid
      = ⟨full, quarterly, full⟩
    ∧ (sid ∈ BOARD_REPORT_SECTIONS →
        section_inputs true board fin full quarterly sid
          = ⟨board.or fin, quarterly, board.or fin⟩)
    ∧ (sid ∈ FINANCIAL_STATEMENTS_SECTIONS →
        section_inputs true board fin full quarterly sid
          = ⟨fin.or board, quarterly, fin.or board⟩)
    ∧ degrade_to_standard true none none = false
    ∧ section_inputs (degrade_to_standard true none none) none none full
        quarterly sid = ⟨full, quarterly, full⟩ := by
  refine ⟨rfl, ?_, ?_, rfl, rfl⟩
  · intro h
    simp [section_inputs, h]
  · intro h
    have hnb : sid ∉ BOARD_REPORT_SECTIONS := by
      fin_cases h <;> decide
    simp [section_inputs, hnb]

/-- Witness for C6: a full-context and a focused-financial section of a heavy
document, the latter with the financial slice missing. -/
theorem C6_routing_witness :
    section_inputs true (some "b") (some "f") (some "a") (some "q")
        "company_profile" = ⟨some "b", some "q", some "b"⟩
    ∧ section_inputs true (some "b") none (some "a") (some "q")
        "debt_structure" = ⟨some "b", some "q", some "b"⟩ := by
  constructor
  · exact ((C6_routing (some "b") (some "f") (some "a") (some "q")
      "company_profile").2.1 (by decide)).trans (by decide)
  · exact ((C6_routing (some "b") none (some "a") (some "q")
      "debt_structure").2.2.1 (by decide)).trans (by decide)

/-- C10: the pipeline flags a section as failed exactly when its HTML
fragment contains the substring class="error"; every error placeholder
emitted by generate_section_with_fallback contains that substring, but a
successfully generated section whose model content happens to contain it is
also counted as failed, and the company's fully-successful classification
follows this substring test, not the structured outcome. -/
theorem C10_error_marker_classification :
    (∀ sid html, collect_failed [(sid, html)]
        = if has_error_marker html then [sid] else [])
    ∧ (SECTIONS.all (fun sid =>
        has_error_marker (generic_failure_div (section_display_name sid))
        && has_error_marker (fallback_failed_div (section_display_name sid))
        && has_error_marker (token_exhausted_div (section_display_name sid))))
        = true
    ∧ (generate_section_with_fallback "financial_analysis" "p" none "p"
        (fun _ _ => HttpEvent.response 200 ""
          (some "<span class=\"error\">note</span>"))).html
        = section_div "financial_analysis" "<span class=\"error\">note</span>"
    ∧ has_error_marker (section_div "financial_analysis"
        "<span class=\"error\">note</span>") = true
    ∧ has_error_marker (section_div "financial_analysis" "<p>fine</p>") = false
    ∧ collect_failed
        [("company_profile", section_div "company_profile" "ok"),
         ("financial_analysis", section_div "financial_analysis"
            "<span class=\"error\">note</span>")]
        = ["financial_analysis"]
    ∧ company_fully_successful (collect_failed
        [("company_profile", section_div "company_profile" "ok"),
         ("financial_analysis", section_div "financial_analysis"
            "<span class=\"error\">note</span>")]) = false := by
  refine ⟨?_, by decide, by decide, by decide, by decide, by decide, by decide⟩
  intro sid html
  cases h : has_error_marker html <;> simp [collect_failed, h]

/-- C1 counterexample: on a 500-page document with the parseable response
whose board_report region is the inverted range start = 5, end = 1, the
returned map's board_report is the crossed range [4, 0] (start > end), so
the claimed validity invariant fails; moreover on a corrupt document the
initial fitz.open raises outside every try block. -/
theorem C1_counterexample :
    map_report_structure (PdfDoc.ok 500) false
        (some (ParsedResponse.object (some ⟨some 5, some 1⟩) none none))
      = Except.ok ⟨⟨4, 0⟩, ⟨125, 300⟩, ⟨300, 499⟩⟩
    ∧ ¬((4 : Int) ≤ 0)
    ∧ map_report_structure PdfDoc.corrupt false none = Except.error () :=
  ⟨rfl, by norm_num, rfl⟩

/-- C1 (amended): for every readable document (N >= 1 pages) and every
remote-model response, map_report_structure returns (without raising) a map
with all three region keys, each with start >= 0 and end <= N-1; on every
heuristic path (empty TOC, missing or unparseable response) the map is the
default heuristic map, whose regions are additionally non-crossed.  A region
taken from a parseable response, however, may be crossed when the response's
bounds are inverted (see the counterexample), and an unreadable document
raises at the initial fitz.open. -/
theorem C1_amended (N : Nat) (hN : 1 ≤ N) (t : Bool)
    (resp : Option ParsedResponse) :
    ∃ m, map_report_structure (PdfDoc.ok N) t resp = Except.ok m
      ∧ (0 ≤ m.board_report.start ∧ m.board_report.stop ≤ (N : Int) - 1)
      ∧ (0 ≤ m.financial_statements.start
          ∧ m.financial_statements.stop ≤ (N : Int) - 1)
      ∧ (0 ≤ m.notes.start ∧ m.notes.stop ≤ (N : Int) - 1)
      ∧ ((t = true ∨ resp = none ∨ resp = some ParsedResponse.unparseable) →
          m = get_default_structure_map N)
      ∧ (m = get_default_structure_map N →
          m.board_report.start ≤ m.board_report.stop
          ∧ m.financial_statements.start ≤ m.financial_statements.stop
          ∧ m.notes.start ≤ m.notes.stop) := by
  have hd := default_map_valid N hN
  have hdef : ∀ m, m = get_default_structure_map N →
      (0 ≤ m.board_report.start ∧ m.board_report.stop ≤ (N : Int) - 1)
      ∧ (0 ≤ m.financial_statements.start
          ∧ m.financial_statements.stop ≤ (N : Int) - 1)
      ∧ (0 ≤ m.notes.start ∧ m.notes.stop ≤ (N : Int) - 1)
      ∧ (m.board_report.start ≤ m.board_report.stop
          ∧ m.financial_statements.start ≤ m.financial_statements.stop
          ∧ m.notes.start ≤ m.notes.stop) := by
    rintro m rfl
    exact ⟨⟨hd.1.1, hd.1.2.2⟩, ⟨hd.2.1.1, hd.2.1.2.2⟩, ⟨hd.2.2.1, hd.2.2.2.2⟩,
           hd.1.2.1, hd.2.1.2.1, hd.2.2.2.1⟩
  cases t with
  | true =>
    obtain ⟨h1, h2, h3, h4⟩ := hdef _ rfl
    exact ⟨get_default_structure_map N, rfl, h1, h2, h3, fun _ => rfl,
           fun _ => h4⟩
  | false =>
    match resp with
    | none =>
      obtain ⟨h1, h2, h3, h4⟩ := hdef _ rfl
      exact ⟨get_default_structure_map N, rfl, h1, h2, h3, fun _ => rfl,
             fun _ => h4⟩
    | some .unparseable =>
      obtain ⟨h1, h2, h3, h4⟩ := hdef _ rfl
      exact ⟨get_default_structure_map N, rfl, h1, h2, h3, fun _ => rfl,
             fun _ => h4⟩
    | some (.object b f nt) =>
      refine ⟨build_validated_map N b f nt, rfl, ?_, ?_, ?_, ?_, ?_⟩
      · cases b with
        | some r => exact validate_region_bounds N r
        | none => exact ⟨hd.1.1, hd.1.2.2⟩
      · cases f with
        | some r => exact validate_region_bounds N r
        | none => exact ⟨hd.2.1.1, hd.2.1.2.2⟩
      · cases nt with
        | some r => exact validate_region_bounds N r
        | none => exact ⟨hd.2.2.1, hd.2.2.2.2⟩
      · rintro (h | h | h) <;> simp at h
      · intro hm
        rw [hm]
        exact ⟨hd.1.2.1, hd.2.1.2.1, hd.2.2.2.1⟩

/-- Witness for C1 (amended): a 100-page document whose model reply was
unusable gets the default heuristic map. -/
theorem C1_amended_witness :
    map_report_structure (PdfDoc.ok 100) false none
      = Except.ok (get_default_structure_map 100) := by
  obtain ⟨m, hm, _, _, _, hdefault, _⟩ := C1_amended 100 (by norm_num) false none
  rw [hdefault (Or.inr (Or.inl rfl))] at hm
  exact hm

/-- C7: each region present in a parseable response is converted from
1-indexed to 0-indexed by subtracting 1 from both bounds, with start clamped
to >= 0 and end clamped to <= N-1; the financial slice spans the union from
financial_statements.start to notes.end; and for a 500-page document with
the response board_report = (1,120), financial_statements = (121,300),
notes = (301,500), the 0-indexed map is board_report = [0,119],
financial_statements = [120,299], notes = [300,499] and the merged financial
slice covers pages [120, 499] (380 pages). -/
theorem C7_parse_conversion_and_union (N : Nat) (b f nt : Option RawRange) :
    (∀ r, b = some r →
      (build_validated_map N b f nt).board_report
        = ⟨max 0 (r.start.getD 1 - 1),
           min ((N : Int) - 1) (r.stop.getD (N : Int) - 1)⟩)
    ∧ (∀ r, f = some r →
      (build_validated_map N b f nt).financial_statements
        = ⟨max 0 (r.start.getD 1 - 1),
           min ((N : Int) - 1) (r.stop.getD (N : Int) - 1)⟩)
    ∧ (∀ r, nt = some r →
      (build_validated_map N b f nt).notes
        = ⟨max 0 (r.start.getD 1 - 1),
           min ((N : Int) - 1) (r.stop.getD (N : Int) - 1)⟩)
    ∧ map_report_structure (PdfDoc.ok N) false
        (some (ParsedResponse.object b f nt))
        = Except.ok (build_validated_map N b f nt)
    ∧ (create_report_slices N (build_validated_map N b f nt)).financial_slice
        = slice_pdf N (build_validated_map N b f nt).financial_statements.start
            (build_validated_map N b f nt).notes.stop
    ∧ map_report_structure (PdfDoc.ok 500) false
        (some (ParsedResponse.object (some ⟨some 1, some 120⟩)
          (some ⟨some 121, some 300⟩) (some ⟨some 301, some 500⟩)))
        = Except.ok ⟨⟨0, 119⟩, ⟨120, 299⟩, ⟨300, 499⟩⟩
    ∧ create_report_slices 500 ⟨⟨0, 119⟩, ⟨120, 299⟩, ⟨300, 499⟩⟩
        = ⟨some (0, 119), some (120, 499)⟩
    ∧ slice_page_count (some ((120 : Int), (499 : Int))) = some 380 := by
  refine ⟨?_, ?_, ?_, rfl, rfl, rfl, rfl, rfl⟩
  · rintro r rfl; rfl
  · rintro r rfl; rfl
  · rintro r rfl; rfl

/-- Witness for C7: the board region of the 500-page scenario, computed via
the general conversion rule. -/
theorem C7_parse_conversion_and_union_witness :
    (build_validated_map 500 (some ⟨some 1, some 120⟩)
        (some ⟨some 121, some 300⟩) (some ⟨some 301, some 500⟩)).board_report
      = ⟨0, 119⟩ := by
  have h := (C7_parse_conversion_and_union 500 (some ⟨some 1, some 120⟩)
      (some ⟨some 121, some 300⟩) (some ⟨some 301, some 500⟩)).1
      ⟨some 1, some 120⟩ rfl
  exact h.trans (by decide)

/-- Characterization of call_section_api when the service returns the same
non-rate-limited response to every request: a 200 response resolves on
content truthiness; otherwise a token-limit-classified response returns
(None, True) at once; otherwise a 500 is retried twice (sleeping 10 then 20
seconds) and gives up; anything else fails at once. -/
lemma call_section_api_const (s : Nat) (b : String) (c : Option String)
    (hrate : is_rate_limit_error s b = false) :
    call_section_api (fun _ => HttpEvent.response s b c) =
      if s == 200 then
        if truthy c then ⟨c, false, 1, []⟩ else ⟨none, false, 1, []⟩
      else if is_token_limit_error s b then ⟨none, true, 1, []⟩
      else if s == 500 then ⟨none, false, 3, [10, 20]⟩
      else ⟨none, false, 1, []⟩ := by
  cases h200 : (s == 200) with
  | true => simp [call_section_api, call_api_loop, h200]
  | false =>
    cases htok : is_token_limit_error s b with
    | true => simp [call_section_api, call_api_loop, h200, hrate, htok]
    | false =>
      cases h500 : (s == 500) with
      | true =>
        simp [call_section_api, call_api_loop, h200, hrate, htok, h500]
      | false =>
        simp [call_section_api, call_api_loop, h200, hrate, htok, h500]

/-- C4 counterexample: a first-call response with status 400 and body
"quota" IS token-limit classified in the claim's sense (status 400), yet the
code classifies it as rate-limited first (the body contains the rate-limit
keyword quota), retries the SAME call six times and then fails generically:
no second call with (fallbackHandle, None) is ever made, refuting the
claimed if-and-only-if. -/
theorem C4_counterexample :
    is_token_limit_error 400 "quota" = true
    ∧ (generate_section_with_fallback "financial_analysis" "p" (some "q") "fb"
        (fun _ _ => HttpEvent.response 400 "quota" none)).calls
      = [(⟨"p", some "q"⟩, 7)]
    ∧ (generate_section_with_fallback "financial_analysis" "p" (some "q") "fb"
        (fun _ _ => HttpEvent.response 400 "quota" none)).html
      = generic_failure_div (section_display_name "financial_analysis") :=
  ⟨by decide, by decide, by decide⟩

/-- C4 (amended): for every section, generateSection first calls the service
with (primaryHandle, secondaryHandle); among responses that are NOT
rate-limit classified (rate-limit classification — status 429 or a
rate-limit keyword in the body — takes priority and leads to in-call retries
instead of fallback), it makes exactly one second call with
(fallbackHandle, None) if and only if the first call fails with a
token/context-limit classification (status 400, or a token-limit keyword in
the body, case-insensitively); the result is Success if either call yields
non-empty content, Failed(token_limit_exhausted) if the fallback response is
again token-limit classified, Failed(fallback_failed) if the fallback call
fails otherwise, and Failed(generic_failure) if the first call fails without
token-limit classification; in the 400-then-success scenario the service is
called exactly twice. -/
theorem C4_amended (sid primary fallback : String) (secondary : Option String)
    (s1 s2 : Nat) (b1 b2 : String) (c1 c2 : Option String)
    (oracle : SectionCall → Nat → HttpEvent)
    (h1 : oracle ⟨primary, secondary⟩ = fun _ => HttpEvent.response s1 b1 c1)
    (h2 : oracle ⟨fallback, none⟩ = fun _ => HttpEvent.response s2 b2 c2)
    (hr1 : is_rate_limit_error s1 b1 = false)
    (hr2 : is_rate_limit_error s2 b2 = false) :
    ((generate_section_with_fallback sid primary secondary fallback
        oracle).calls.map Prod.fst).head? = some ⟨primary, secondary⟩
    ∧ ((generate_section_with_fallback sid primary secondary fallback
          oracle).calls.map Prod.fst
          = [⟨primary, secondary⟩, ⟨fallback, none⟩]
        ↔ s1 ≠ 200 ∧ is_token_limit_error s1 b1 = true)
    ∧ (s1 = 200 → truthy c1 = true →
        generate_section_with_fallback sid primary secondary fallback oracle
          = ⟨section_div sid (c1.getD ""), [(⟨primary, secondary⟩, 1)]⟩)
    ∧ (s1 = 200 → truthy c1 = false →
        generate_section_with_fallback sid primary secondary fallback oracle
          = ⟨generic_failure_div (section_display_name sid),
             [(⟨primary, secondary⟩, 1)]⟩)
    ∧ (s1 ≠ 200 → is_token_limit_error s1 b1 = false →
        (generate_section_with_fallback sid primary secondary fallback
            oracle).html = generic_failure_div (section_display_name sid)
        ∧ (generate_section_with_fallback sid primary secondary fallback
            oracle).calls.map Prod.fst = [⟨primary, secondary⟩])
    ∧ (s1 ≠ 200 → is_token_limit_error s1 b1 = true →
        (s2 = 200 → truthy c2 = true →
          generate_section_with_fallback sid primary secondary fallback oracle
            = ⟨section_div sid (c2.getD ""),
               [(⟨primary, secondary⟩, 1), (⟨fallback, none⟩, 1)]⟩)
        ∧ (s2 ≠ 200 → is_token_limit_error s2 b2 = true →
            (generate_section_with_fallback sid primary secondary fallback
              oracle).html = token_exhausted_div (section_display_name sid))
        ∧ (s2 = 200 → truthy c2 = false →
            (generate_section_with_fallback sid primary secondary fallback
              oracle).html = fallback_failed_div (section_display_name sid))
        ∧ (s2 ≠ 200 → is_token_limit_error s2 b2 = false →
            (generate_section_with_fallback sid primary secondary fallback
              oracle).html
              = fallback_failed_div (section_display_name sid))) := by
  have e1 : call_section_api (oracle ⟨primary, secondary⟩)
      = if s1 == 200 then
          if truthy c1 then ⟨c1, false, 1, []⟩ else ⟨none, false, 1, []⟩
        else if is_token_limit_error s1 b1 then ⟨none, true, 1, []⟩
        else if s1 == 500 then ⟨none, false, 3, [10, 20]⟩
        else ⟨none, false, 1, []⟩ := by
    rw [h1]; exact call_section_api_const s1 b1 c1 hr1
  by_cases h200 : s1 = 200
  · subst h200
    cases ht1 : truthy c1 with
    | false =>
      have e1c : call_section_api (oracle ⟨primary, secondary⟩)
          = ⟨none, false, 1, []⟩ := by
        rw [e1]; simp [ht1]
      have hG : generate_section_with_fallback sid primary secondary fallback
          oracle = ⟨generic_failure_div (section_display_name sid),
            [(⟨primary, secondary⟩, 1)]⟩ := by
        simp only [generate_section_with_fallback]
        rw [e1c]; simp [truthy]
      refine ⟨?_, ?_, ?_, ?_, ?_, ?_⟩ <;> simp [hG, ht1]
    | true =>
      have e1c : call_section_api (oracle ⟨primary, secondary⟩)
          = ⟨c1, false, 1, []⟩ := by
        rw [e1]; simp [ht1]
      have hG : generate_section_with_fallback sid primary secondary fallback
          oracle = ⟨section_div sid (c1.getD ""),
            [(⟨primary, secondary⟩, 1)]⟩ := by
        simp only [generate_section_with_fallback]
        rw [e1c]; simp [ht1]
      refine ⟨?_, ?_, ?_, ?_, ?_, ?_⟩ <;> simp [hG, ht1]
  · have hb1 : (s1 == 200) = false := by simp [h200]
    cases htok1 : is_token_limit_error s1 b1 with
    | false =>
      have hc : (call_section_api (oracle ⟨primary, secondary⟩)).content
          = none := by
        rw [e1]; simp [hb1, htok1]; split <;> rfl
      have htk : (call_section_api (oracle ⟨primary, secondary⟩)).isTokenError
          = false := by
        rw [e1]; simp [hb1, htok1]; split <;> rfl
      have hG : (generate_section_with_fallback sid primary secondary fallback
            oracle).html = generic_failure_div (section_display_name sid)
          ∧ (generate_section_with_fallback sid primary secondary fallback
            oracle).calls.map Prod.fst = [⟨primary, secondary⟩] := by
        simp only [generate_section_with_fallback]
        rw [hc, htk]
        simp [truthy]
      refine ⟨?_, ?_, ?_, ?_, ?_, ?_⟩ <;> simp [hG.1, hG.2, h200, htok1]
    | true =>
      have e1t : call_section_api (oracle ⟨primary, secondary⟩)
          = ⟨none, true, 1, []⟩ := by
        rw [e1]; simp [hb1, htok1]
      have e2 : call_section_api (oracle ⟨fallback, none⟩)
          = if s2 == 200 then
              if truthy c2 then ⟨c2, false, 1, []⟩ else ⟨none, false, 1, []⟩
            else if is_token_limit_error s2 b2 then ⟨none, true, 1, []⟩
            else if s2 == 500 then ⟨none, false, 3, [10, 20]⟩
            else ⟨none, false, 1, []⟩ := by
        rw [h2]; exact call_section_api_const s2 b2 c2 hr2
      by_cases h2200 : s2 = 200
      · subst h2200
        by_cases ht2 : truthy c2 = true
        · have e2c : call_section_api (oracle ⟨fallback, none⟩)
              = ⟨c2, false, 1, []⟩ := by
            rw [e2]; simp [ht2]
          have hG : generate_section_with_fallback sid primary secondary
              fallback oracle
              = ⟨section_div sid (c2.getD ""),
                 [(⟨primary, secondary⟩, 1), (⟨fallback, none⟩, 1)]⟩ := by
            simp only [generate_section_with_fallback]
            rw [e1t, e2c]
            simp [ht2, show truthy none = false from rfl]
          refine ⟨by rw [hG]; rfl, ?_, ?_, ?_, ?_, ?_⟩
          · rw [hG]
            exact ⟨fun _ => ⟨h200, rfl⟩, fun _ => rfl⟩
          · intro hs1; exact absurd hs1 h200
          · intro hs1; exact absurd hs1 h200
          · intro _ htokf; exact absurd htokf (by decide)
          · intro _ _
            refine ⟨fun _ _ => hG, ?_, ?_, ?_⟩
            · intro hne _; exact absurd rfl hne
            · intro _ hfalse; exact absurd (ht2.symm.trans hfalse) (by decide)
            · intro hne _; exact absurd rfl hne
        · rw [Bool.not_eq_true] at ht2
          have e2c : call_section_api (oracle ⟨fallback, none⟩)
              = ⟨none, false, 1, []⟩ := by
            rw [e2]; simp [ht2]
          have hG : generate_section_with_fallback sid primary secondary
              fallback oracle
              = ⟨fallback_failed_div (section_display_name sid),
                 [(⟨primary, secondary⟩, 1), (⟨fallback, none⟩, 1)]⟩ := by
            simp only [generate_section_with_fallback]
            rw [e1t, e2c]; simp [truthy]
          refine ⟨?_, ?_, ?_, ?_, ?_, ?_⟩ <;> simp [hG, h200, htok1, ht2]
      · have hb2 : (s2 == 200) = false := by simp [h2200]
        cases htok2 : is_token_limit_error s2 b2 with
        | true =>
          have e2t : call_section_api (oracle ⟨fallback, none⟩)
              = ⟨none, true, 1, []⟩ := by
            rw [e2]; simp [hb2, htok2]
          have hG : generate_section_with_fallback sid primary secondary
              fallback oracle
              = ⟨token_exhausted_div (section_display_name sid),
                 [(⟨primary, secondary⟩, 1), (⟨fallback, none⟩, 1)]⟩ := by
            simp only [generate_section_with_fallback]
            rw [e1t, e2t]; simp [truthy]
          refine ⟨?_, ?_, ?_, ?_, ?_, ?_⟩ <;>
            simp [hG, h200, h2200, htok1, htok2]
        | false =>
          have hc2 : (call_section_api (oracle ⟨fallback, none⟩)).content
              = none := by
            rw [e2]; simp [hb2, htok2]; split <;> rfl
          have htk2 : (call_section_api
              (oracle ⟨fallback, none⟩)).isTokenError = false := by
            rw [e2]; simp [hb2, htok2]; split <;> rfl
          have hG : (generate_section_with_fallback sid primary secondary
                fallback oracle).html
                = fallback_failed_div (section_display_name sid)
              ∧ (generate_section_with_fallback sid primary secondary fallback
                oracle).calls.map Prod.fst
                = [⟨primary, secondary⟩, ⟨fallback, none⟩] := by
            simp only [generate_section_with_fallback]
            rw [e1t, hc2, htk2]
            simp [truthy]
          refine ⟨?_, ?_, ?_, ?_, ?_, ?_⟩ <;>
            simp [hG.1, hG.2, h200, h2200, htok1, htok2]

/-- Witness for C4 (amended): the 400-then-success scenario — first call
gets a clean HTTP 400, the fallback call with only the fallback handle
succeeds; the outcome is the wrapped content and the service was called
exactly twice (two calls of one request each). -/
theorem C4_amended_witness :
    generate_section_with_fallback "financial_analysis" "p" (some "q") "fb"
        (fun c _ => if c = ⟨"p", some "q"⟩ then HttpEvent.response 400 "" none
                    else HttpEvent.response 200 "" (some "ok"))
      = ⟨section_div "financial_analysis" "ok",
         [(⟨"p", some "q"⟩, 1), (⟨"fb", none⟩, 1)]⟩ := by
  have h := (C4_amended "financial_analysis" "p" "fb" (some "q") 400 200 "" ""
      none (some "ok")
      (fun c _ => if c = ⟨"p", some "q"⟩ then HttpEvent.response 400 "" none
                  else HttpEvent.response 200 "" (some "ok"))
      (by funext k; simp) (by funext k; simp) (by decide)
      (by decide)).2.2.2.2.2 (by decide) (by decide)
  exact (h.1 rfl (by decide)).trans (by decide)

end BatchReport
